import Mathlib

/-!
Shallow embedding of `src/bot.py` (a Telegram bot relaying messages to the
Gemini generateContent API), together with theorems settling the frozen
claims about it.

Python strings are modelled as Lean `String`s (Python `len` counts code
points, as does `String.length`); character-level operations go through
`String.data : List Char`.  Python `dict`/JSON values are modelled by the
`Json` inductive below.  The in-place mutation of the global
`chat_histories` dict and of the per-chat `deque` objects is modelled by
explicit state passing over `Store := Int → Option (List Turn)`.
Exceptions that the source catches are modelled by `Option`/branching;
exceptions that escape a function are modelled by `Except`.
-/

/-- The whitespace characters stripped by Python `str.strip` / `str.rstrip`
(for the ASCII range, which is all the claims exercise). -/
def isPySpace (c : Char) : Bool :=
  c = ' ' || c = '\t' || c = '\n' || c = '\r' || c = '\x0b' || c = '\x0c'

/-- Python `s.lstrip()` on a list of characters. -/
def pyLstrip (s : List Char) : List Char :=
  s.dropWhile isPySpace

/-- Python `s.rstrip()` on a list of characters. -/
def pyRstrip (s : List Char) : List Char :=
  ((s.reverse).dropWhile isPySpace).reverse

/-- Python `s.strip()` on a list of characters. -/
def pyStrip (s : List Char) : List Char :=
  pyRstrip (pyLstrip s)

/-- Python `s.strip()` on a `String`. -/
def pyStripS (s : String) : String :=
  ⟨pyStrip s.data⟩

/-- Python truthiness of an `Optional[str]` (`None` and `""` are falsy). -/
def pyTruthyStr? : Option String → Bool
  | none => false
  | some s => !(s == "")

/-- One stored turn.  The source stores the wire-shaped dict
`\x7b"role": r, "parts": [\x7b"text": t\x7d]\x7d`; since every dict the source ever
appends has exactly this shape, a record of the two payload strings is a
faithful model. -/
structure Turn where
  role : String
  text : String
deriving DecidableEq, Repr

/-- `collections.deque(maxlen := m).append t` starting from contents `h`:
the new element goes to the right and, if the deque is full, the leftmost
(oldest) element is discarded.  When `h.length < m` the dropped count is
`0`, so this single formula covers both the roomy and the full case. -/
def dequeAppend (m : Nat) (h : List Turn) (t : Turn) : List Turn :=
  (h ++ [t]).drop (h.length + 1 - m)

/-- `trim_for_telegram` from `src/bot.py` lines 71–76, with the
`MAX_REPLY_CHARS` global made an explicit parameter.  The suffix `…` has
Python `len` 1, so `cut = max_reply_chars - 1`; Python `max(0, cut)` is the
truncation already built into `Nat` subtraction. -/
def trim_for_telegram (max_reply_chars : Nat) (text : String) : String :=
  if text.length ≤ max_reply_chars then text
  else ⟨pyRstrip (text.data.take (max_reply_chars - 1)) ++ ['…']⟩

/-- A Python value as produced by `response.json()` (JSON numbers are kept
abstract as integers; no claim computes with a numeric value). -/
inductive Json where
  | null
  | bool (b : Bool)
  | num (n : Int)
  | str (s : String)
  | arr (xs : List Json)
  | obj (fields : List (String × Json))

/-- Python subscripting `j[k]` with a string key, inside a `try` that
catches `KeyError` and `TypeError`: a dict without the key raises
`KeyError`, a non-dict raises `TypeError` (a string subscripted by a string
also raises `TypeError`); both are caught identically, so `none` models
every failing case. -/
def Json.lookup? (j : Json) (k : String) : Option Json :=
  match j with
  | .obj fields => fields.lookup k
  | _ => none

/-- Python subscripting `j[0]`, inside a `try` that catches `IndexError`
and `TypeError`.  An empty list raises `IndexError`; a non-sequence raises
`TypeError`.  A nonempty string returns its first character, but the
navigation in `extract_text` then subscripts that character with a string
key, raising a caught `TypeError`, so mapping strings to `none` here gives
the same observable result. -/
def Json.index0? (j : Json) : Option Json :=
  match j with
  | .arr xs => xs.head?
  | _ => none

/-- Python truthiness of a `Json` value. -/
def Json.truthy : Json → Bool
  | .null => false
  | .bool b => b
  | .num n => !(n == 0)
  | .str s => !(s == "")
  | .arr xs => !xs.isEmpty
  | .obj fields => !fields.isEmpty

/-- The items a Python `for` loop yields from a value: a list yields its
elements, a string its one-character substrings, a dict its keys; anything
else raises `TypeError` (which `extract_text` does NOT catch). -/
def Json.iterate? : Json → Option (List Json)
  | .arr xs => some xs
  | .str s => some (s.data.map fun c => Json.str (String.singleton c))
  | .obj fields => some (fields.map fun kv => Json.str kv.1)
  | _ => none

/-- Python `part.get("text")`: defined only on dicts; on anything else the
attribute access raises `AttributeError`, which `extract_text` does not
catch (`Except.error`). -/
def Json.dictGet : Json → String → Except Unit (Option Json)
  | .obj fields, k => .ok (fields.lookup k)
  | _, _ => .error ()

/-- The loop body of `extract_text` lines 63–67: collect, in order, the
values `part.get("text")` that are truthy.  A non-dict part raises an
uncaught `AttributeError`. -/
def collectTexts : List Json → Except Unit (List Json)
  | [] => .ok []
  | p :: ps => do
    let t? ← Json.dictGet p "text"
    let rest ← collectTexts ps
    match t? with
    | some t => if t.truthy then .ok (t :: rest) else .ok rest
    | none => .ok rest

/-- Python `"".join(texts)`: concatenates string items in order; the first
non-string item raises an uncaught `TypeError`. -/
def joinStrs : List Json → Except Unit String
  | [] => .ok ""
  | .str s :: rest => (joinStrs rest).map fun r => s ++ r
  | _ :: _ => .error ()

/-- The guarded navigation of `extract_text` line 59:
`data["candidates"][0]["content"]["parts"]`, where `KeyError`, `IndexError`
and `TypeError` are caught (modelled by `none`). -/
def navParts (data : Json) : Option Json :=
  (((data.lookup? "candidates").bind Json.index0?).bind
    fun c0 => c0.lookup? "content").bind
    fun ct => ct.lookup? "parts"

/-- `extract_text` from `src/bot.py` lines 57–68.  A failure of the guarded
navigation returns `""`; the subsequent loop and join can raise exceptions
the function itself does not catch (`Except.error`, absorbed upstream by
`handle_message`'s catch-all). -/
def extract_text (data : Json) : Except Unit String :=
  match navParts data with
  | none => .ok ""
  | some parts =>
    match parts.iterate? with
    | none => .error ()
    | some items => do
      let texts ← collectTexts items
      let s ← joinStrs texts
      .ok (pyStripS s)

/-- The process-wide configuration read from the environment at module load
(`src/bot.py` lines 15–27).  `os.getenv` yields `None` or a string, hence
`Option String` for the token, key and system prompt.  The float
`TEMPERATURE` is modelled as an exact rational: no claim performs float
arithmetic on it, it is only carried into the payload. -/
structure Env where
  telegram_bot_token : Option String
  gemini_api_key : Option String
  system_prompt : Option String
  temperature : Rat
  max_history : Nat
  max_reply_chars : Nat

/-- The `generationConfig` block of the request payload. -/
structure GenConfigBlock where
  temperature : Rat
deriving DecidableEq, Repr

/-- The request payload built by `build_payload`: the history under
`contents`, the `generationConfig` block, and the optional top-level
`systemInstruction` field (whose wire shape `parts: [text: s]` carries
exactly the one string modelled here). -/
structure Payload where
  contents : List Turn
  generationConfig : GenConfigBlock
  systemInstruction : Option String
deriving DecidableEq, Repr

/-- `build_payload` from `src/bot.py` lines 43–54, with the globals
`SYSTEM_PROMPT` and `TEMPERATURE` made explicit parameters.  The
`systemInstruction` key is added only when `SYSTEM_PROMPT` is truthy
(present and nonempty). -/
def build_payload (system_prompt : Option String) (temperature : Rat)
    (history : List Turn) : Payload :=
  { contents := history
    generationConfig := { temperature := temperature }
    systemInstruction := if pyTruthyStr? system_prompt then system_prompt else none }

/-- The global `chat_histories : Dict[int, History]` dict, modelled as a map;
dict mutation becomes pointwise functional update. -/
def Store : Type := Int → Option (List Turn)

/-- Functional update of one entry of `chat_histories` (models both
`chat_histories[chat_id] = h` and the in-place mutation of the deque object
stored there, which the dict observes). -/
def storeSet (store : Store) (chat_id : Int) (h : List Turn) : Store :=
  fun i => if i = chat_id then some h else store i

/-- `get_history` from `src/bot.py` lines 35–40: returns the existing
history or creates, stores and returns an empty one.  The returned pair is
(the deque's contents, the dict afterwards). -/
def get_history (store : Store) (chat_id : Int) : List Turn × Store :=
  match store chat_id with
  | some h => (h, store)
  | none => ([], storeSet store chat_id [])

/-- `new_chat` from `src/bot.py` lines 104–107: `chat_histories.pop(chat_id,
None)` removes the entry entirely (the confirmation message it then sends
carries no state). -/
def new_chat (store : Store) (chat_id : Int) : Store :=
  fun i => if i = chat_id then none else store i

/-- The observable outcome of the one outbound `client.post` in
`call_gemini`: a response (with status and parsed body, `none` body meaning
`response.json()` raises a decode error), a `httpx.TimeoutException`, or
any other transport exception. -/
inductive HttpOutcome where
  | response (status : Nat) (body : Option Json)
  | timeout
  | otherFailure

/-- How a failing `call_gemini` escapes: the exception class that
`handle_message`'s `except` clauses distinguish. -/
inductive CallError where
  | httpStatus (code : Nat)
  | timeout
  | other
deriving DecidableEq, Repr

/-- `call_gemini` from `src/bot.py` lines 79–92, the outbound HTTP call
replaced by its observable outcome.  `response.raise_for_status()` raises
`httpx.HTTPStatusError` exactly on non-2xx statuses; then
`response.json()` may raise a decode error (neither an `HTTPStatusError`
nor a `TimeoutException`, hence `CallError.other`); then `extract_text`
may itself raise (also reaching `handle_message`'s catch-all). -/
def call_gemini (env : Env) (history : List Turn) (outcome : HttpOutcome) :
    Except CallError String :=
  let _payload := build_payload env.system_prompt env.temperature history
  match outcome with
  | .timeout => .error .timeout
  | .otherFailure => .error .other
  | .response status body =>
    if 200 ≤ status ∧ status ≤ 299 then
      match body with
      | none => .error .other
      | some data =>
        match extract_text data with
        | .ok s => .ok s
        | .error _ => .error .other
    else .error (.httpStatus status)

/-- Fallback sent when the model produced an empty reply (line 131). -/
def empty_reply_fallback : String :=
  "Gemini вернул пустой ответ. Попробуйте переформулировать запрос."

/-- Fallback for an HTTP error status (lines 133–136). -/
def api_error_fallback (code : Nat) : String :=
  "Ошибка Gemini API. Проверьте ключ и модель, затем повторите запрос. (HTTP "
    ++ toString code ++ ")"

/-- Fallback for a request timeout (line 138). -/
def timeout_fallback : String :=
  "Таймаут запроса к Gemini. Попробуйте позже."

/-- Fallback for any other exception (line 140). -/
def unknown_error_fallback : String :=
  "Непредвиденная ошибка при обращении к Gemini."

/-- Reply sent when the bot token or API key is missing (lines 115–117). -/
def config_error_text : String :=
  "Ошибка конфигурации: проверьте TELEGRAM_BOT_TOKEN и GEMINI_API_KEY в .env"

/-- The text bound to `reply_text` by the try/except of lines 128–140. -/
def reply_for (env : Env) (history : List Turn) (outcome : HttpOutcome) : String :=
  match call_gemini env history outcome with
  | .ok s => if s == "" then empty_reply_fallback else s
  | .error (.httpStatus code) => api_error_fallback code
  | .error .timeout => timeout_fallback
  | .error .other => unknown_error_fallback

/-- How one run of `handle_message` ends, as seen from outside. -/
inductive HandlerResult where
  /-- Returned at line 112: no text on the update. -/
  | ignored
  /-- Replied with the given configuration-error text and returned
  (lines 114–118). -/
  | configErrorReplied (text : String)
  /-- The unguarded `send_chat_action` on line 126 raised; the exception
  propagates out of `handle_message` (the framework logs it; the process
  survives, but the rest of the handler never runs). -/
  | raisedDuringTyping
  /-- Reached line 144 and replied with the given text. -/
  | replied (text : String)
deriving DecidableEq, Repr

/-- `handle_message` from `src/bot.py` lines 110–144.  `msg_text` is
`update.message.text` (`none` covering both a missing message and missing
text); `typing_ok` is whether the `send_chat_action` call on line 126
succeeds; `outcome` is the oracle for the HTTP call.  Returns the
`chat_histories` dict afterwards and the observable result. -/
def handle_message (env : Env) (store : Store) (chat_id : Int)
    (msg_text : Option String) (typing_ok : Bool) (outcome : HttpOutcome) :
    Store × HandlerResult :=
  if !(pyTruthyStr? msg_text) then (store, .ignored)
  else if !(pyTruthyStr? env.telegram_bot_token) ||
      !(pyTruthyStr? env.gemini_api_key) then
    (store, .configErrorReplied config_error_text)
  else
    let got := get_history store chat_id
    let user_text := pyStripS (msg_text.getD "")
    let history₁ := dequeAppend env.max_history got.1 ⟨"user", user_text⟩
    let store₁ := storeSet got.2 chat_id history₁
    if !typing_ok then (store₁, .raisedDuringTyping)
    else
      let reply_text := reply_for env history₁ outcome
      let history₂ := dequeAppend env.max_history history₁ ⟨"model", reply_text⟩
      let store₂ := storeSet store₁ chat_id history₂
      (store₂, .replied (trim_for_telegram env.max_reply_chars reply_text))

/-- The fallback text that `handle_message`'s `except` clauses choose for
each way `call_gemini` can fail (lines 132–140). -/
def fallback_of : CallError → String
  | .httpStatus code => api_error_fallback code
  | .timeout => timeout_fallback
  | .other => unknown_error_fallback

/-- A well-formed success response whose first candidate carries the given
list of parts. -/
def mkResponse (parts : List Json) : Json :=
  .obj [("candidates", .arr [.obj [("content", .obj [("parts", .arr parts)])]])]

/-- A response whose first candidate carries an arbitrary value in the
`parts` slot (used to exercise malformed bodies). -/
def mkResponse' (parts : Json) : Json :=
  .obj [("candidates", .arr [.obj [("content", .obj [("parts", parts)])]])]

/-- A concrete configuration with both credentials present, used by the
concrete instances below. -/
def exEnv : Env :=
  { telegram_bot_token := some "token"
    gemini_api_key := some "key"
    system_prompt := none
    temperature := 7 / 10
    max_history := 30
    max_reply_chars := 3500 }

/-- The empty `chat_histories` dict. -/
def exStoreEmpty : Store := fun _ => none

/-- A response whose parts are a dict carrying text and a dict without a
`text` key. -/
def exDataSkip : Json :=
  mkResponse [.obj [("text", .str "hi")], .obj []]

-- Basic facts about the helpers.

theorem pyRstrip_length_le (s : List Char) : (pyRstrip s).length ≤ s.length := by
  unfold pyRstrip
  calc ((s.reverse).dropWhile isPySpace).reverse.length
      = ((s.reverse).dropWhile isPySpace).length := by
        rw [List.length_reverse]
    _ ≤ s.reverse.length := (List.dropWhile_sublist isPySpace).length_le
    _ = s.length := by rw [List.length_reverse]

theorem dequeAppend_length (m : Nat) (h : List Turn) (t : Turn) :
    (dequeAppend m h t).length = min (h.length + 1) m := by
  unfold dequeAppend
  rw [List.length_drop, List.length_append]
  simp only [List.length_cons, List.length_nil]
  omega

theorem dequeAppend_of_room (m : Nat) (h : List Turn) (t : Turn)
    (hr : h.length < m) : dequeAppend m h t = h ++ [t] := by
  unfold dequeAppend
  have : h.length + 1 - m = 0 := by omega
  rw [this, List.drop_zero]

theorem dequeAppend_of_full (m : Nat) (h : List Turn) (t : Turn)
    (hf : h.length = m) (hm : 0 < m) : dequeAppend m h t = h.tail ++ [t] := by
  unfold dequeAppend
  have h1 : h.length + 1 - m = 1 := by omega
  rw [h1]
  cases h with
  | nil => simp at hf; omega
  | cons a h => simp

theorem head?_dropWhile_not (p : Char → Bool) (l : List Char) (c : Char)
    (h : (l.dropWhile p).head? = some c) : p c = false := by
  induction l with
  | nil => simp [List.dropWhile] at h
  | cons a l ih =>
    rw [List.dropWhile_cons] at h
    by_cases hp : p a
    · rw [if_pos hp] at h
      exact ih h
    · rw [if_neg hp] at h
      simp only [List.head?_cons, Option.some.injEq] at h
      subst h
      exact Bool.of_not_eq_true hp

theorem pyRstrip_head? (l : List Char) (c : Char)
    (h : (pyRstrip l).head? = some c) : l.head? = some c := by
  obtain ⟨t, ht⟩ := List.dropWhile_suffix (l := l.reverse) isPySpace
  have hl : l = pyRstrip l ++ t.reverse := by
    have := congrArg List.reverse ht
    simpa [pyRstrip, List.reverse_append] using this.symm
  rw [hl, List.head?_append, h]
  rfl

theorem pyStrip_head?_not_space (l : List Char) (c : Char)
    (h : (pyStrip l).head? = some c) : isPySpace c = false := by
  have h1 : (pyLstrip l).head? = some c := pyRstrip_head? (pyLstrip l) c h
  exact head?_dropWhile_not isPySpace l c h1

theorem pyStrip_getLast?_not_space (l : List Char) (c : Char)
    (h : (pyStrip l).getLast? = some c) : isPySpace c = false := by
  have h1 : ((pyLstrip l).reverse.dropWhile isPySpace).head? = some c := by
    have : (pyStrip l).getLast? =
        ((pyLstrip l).reverse.dropWhile isPySpace).head? := by
      simp [pyStrip, pyRstrip]
    rwa [this] at h
  exact head?_dropWhile_not isPySpace _ c h1

theorem storeSet_same (store : Store) (chat_id : Int) (h : List Turn) :
    storeSet store chat_id h chat_id = some h := by
  simp [storeSet]

theorem call_gemini_hist_irrel (env : Env) (h₁ h₂ : List Turn)
    (outcome : HttpOutcome) :
    call_gemini env h₁ outcome = call_gemini env h₂ outcome := rfl

/-- Unfolding of `handle_message` on the normal path: text present, both
credentials present, typing indicator succeeded. -/
theorem handle_message_eq (env : Env) (store : Store) (chat_id : Int)
    (s : String) (outcome : HttpOutcome)
    (htok : pyTruthyStr? env.telegram_bot_token = true)
    (hkey : pyTruthyStr? env.gemini_api_key = true)
    (hs : pyTruthyStr? (some s) = true) :
    handle_message env store chat_id (some s) true outcome =
      (storeSet
        (storeSet (get_history store chat_id).2 chat_id
          (dequeAppend env.max_history (get_history store chat_id).1
            ⟨"user", pyStripS s⟩))
        chat_id
        (dequeAppend env.max_history
          (dequeAppend env.max_history (get_history store chat_id).1
            ⟨"user", pyStripS s⟩)
          ⟨"model",
            reply_for env
              (dequeAppend env.max_history (get_history store chat_id).1
                ⟨"user", pyStripS s⟩) outcome⟩),
       .replied (trim_for_telegram env.max_reply_chars
         (reply_for env
           (dequeAppend env.max_history (get_history store chat_id).1
             ⟨"user", pyStripS s⟩) outcome))) := by
  unfold handle_message
  rw [hs, htok, hkey]
  simp

/-- Unfolding of `handle_message` when the typing call raises. -/
theorem handle_message_typing_failed_eq (env : Env) (store : Store)
    (chat_id : Int) (s : String) (outcome : HttpOutcome)
    (htok : pyTruthyStr? env.telegram_bot_token = true)
    (hkey : pyTruthyStr? env.gemini_api_key = true)
    (hs : pyTruthyStr? (some s) = true) :
    handle_message env store chat_id (some s) false outcome =
      (storeSet (get_history store chat_id).2 chat_id
        (dequeAppend env.max_history (get_history store chat_id).1
          ⟨"user", pyStripS s⟩),
       .raisedDuringTyping) := by
  unfold handle_message
  rw [hs, htok, hkey]
  simp

/-- C1: for every conversation and every sequence of appends the stored
history length never exceeds `MAX_HISTORY`, and appending when the history
is at (nonempty) capacity removes exactly the oldest turn, keeping the
relative order of the remaining turns and placing the new turn last
(strict FIFO, regardless of role). -/
theorem history_bounded_fifo (m : Nat) (h : List Turn) (ts : List Turn)
    (hh : h.length ≤ m) :
    (ts.foldl (dequeAppend m) h).length ≤ m ∧
    (∀ t : Turn, h.length = m → 0 < m → dequeAppend m h t = h.tail ++ [t]) := by
  constructor
  · induction ts generalizing h with
    | nil => exact hh
    | cons t ts ih =>
      simp only [List.foldl_cons]
      exact ih _ (by rw [dequeAppend_length]; omega)
  · intro t hf hm
    exact dequeAppend_of_full m h t hf hm

theorem history_bounded_fifo_witness :
    (([⟨"user", "c"⟩, ⟨"model", "d"⟩] : List Turn).foldl (dequeAppend 2)
        [⟨"user", "a"⟩, ⟨"model", "b"⟩]).length ≤ 2 ∧
    dequeAppend 2 [⟨"user", "a"⟩, ⟨"model", "b"⟩] ⟨"user", "c"⟩ =
      [⟨"model", "b"⟩, ⟨"user", "c"⟩] :=
  ⟨(history_bounded_fifo 2 [⟨"user", "a"⟩, ⟨"model", "b"⟩]
      [⟨"user", "c"⟩, ⟨"model", "d"⟩] (by decide)).1,
   (history_bounded_fifo 2 [⟨"user", "a"⟩, ⟨"model", "b"⟩] [] (by decide)).2
     ⟨"user", "c"⟩ (by decide) (by decide)⟩

/-- C3 counterexample: with bound 3 and the 5-character text `"a   b"`, the
truncated prefix ends in whitespace that `rstrip` removes, so the output
`"a…"` has length 2, not exactly 3 as the claim states. -/
theorem trim_exact_length_cex :
    3 < ("a   b" : String).length ∧
    (trim_for_telegram 3 "a   b").length ≠ 3 := by
  constructor
  · decide
  · decide

/-- C3 amended: if `len(text) <= N` the text is returned unchanged;
otherwise (for `N ≥ 1`) the output has length AT MOST `N` (trailing
whitespace removed before the marker can shorten it below `N`) and ends
with the ellipsis marker. -/
theorem trim_bound_ellipsis (n : Nat) (text : String) :
    (text.length ≤ n → trim_for_telegram n text = text) ∧
    (n < text.length → 1 ≤ n →
      (trim_for_telegram n text).length ≤ n ∧
      (trim_for_telegram n text).data.getLast? = some '…') := by
  constructor
  · intro hle
    unfold trim_for_telegram
    rw [if_pos hle]
  · intro hgt hn
    unfold trim_for_telegram
    rw [if_neg (by omega)]
    constructor
    · show (pyRstrip (text.data.take (n - 1)) ++ ['…']).length ≤ n
      rw [List.length_append]
      have h1 : (pyRstrip (text.data.take (n - 1))).length ≤
          (text.data.take (n - 1)).length := pyRstrip_length_le _
      have h2 : (text.data.take (n - 1)).length ≤ n - 1 := by
        rw [List.length_take]; omega
      simp only [List.length_cons, List.length_nil]
      omega
    · exact List.getLast?_concat _

theorem trim_bound_ellipsis_witness :
    ((trim_for_telegram 5 "ab" = "ab") ∧
     (trim_for_telegram 3 "a   b").length ≤ 3 ∧
     (trim_for_telegram 3 "a   b").data.getLast? = some '…') :=
  ⟨(trim_bound_ellipsis 5 "ab").1 (by decide),
   ((trim_bound_ellipsis 3 "a   b").2 (by decide) (by decide)).1,
   ((trim_bound_ellipsis 3 "a   b").2 (by decide) (by decide)).2⟩

/-- C7: `build_payload` is a pure function; with a nonempty system
instruction the payload carries a top-level `systemInstruction` field with
that text, with an empty or absent instruction the field is omitted, and in
both cases the payload carries the turns in their original order and a
`generationConfig` block with the temperature. -/
theorem build_payload_spec (sp : Option String) (temp : Rat)
    (hist : List Turn) :
    (∀ s : String, sp = some s → s ≠ "" →
      (build_payload sp temp hist).systemInstruction = some s) ∧
    ((sp = none ∨ sp = some "") →
      (build_payload sp temp hist).systemInstruction = none) ∧
    (build_payload sp temp hist).contents = hist ∧
    (build_payload sp temp hist).generationConfig.temperature = temp := by
  refine ⟨?_, ?_, rfl, rfl⟩
  · intro s hsp hs
    subst hsp
    simp [build_payload, pyTruthyStr?, hs]
  · rintro (hsp | hsp) <;> subst hsp <;> simp [build_payload, pyTruthyStr?]

theorem build_payload_spec_witness :
    (build_payload (some "be brief") (7 / 10)
        [⟨"user", "hi"⟩]).systemInstruction = some "be brief" ∧
    (build_payload none (7 / 10) [⟨"user", "hi"⟩]).systemInstruction = none ∧
    (build_payload (some "") (7 / 10) [⟨"user", "hi"⟩]).systemInstruction = none ∧
    (build_payload (some "be brief") (7 / 10) [⟨"user", "hi"⟩]).contents =
      [⟨"user", "hi"⟩] :=
  ⟨(build_payload_spec (some "be brief") (7 / 10) [⟨"user", "hi"⟩]).1
      "be brief" rfl (by decide),
   (build_payload_spec none (7 / 10) [⟨"user", "hi"⟩]).2.1 (Or.inl rfl),
   (build_payload_spec (some "") (7 / 10) [⟨"user", "hi"⟩]).2.1 (Or.inr rfl),
   (build_payload_spec (some "be brief") (7 / 10) [⟨"user", "hi"⟩]).2.2.1⟩

/-- C8: after `new_chat` (reset) on a conversation id, `get_history` on
that id yields an empty history of length 0, and (whenever the pre-reset
history was nonempty) a history distinct from the pre-reset one. -/
theorem reset_then_get_empty (store : Store) (chat_id : Int) :
    (get_history (new_chat store chat_id) chat_id).1 = [] ∧
    (∀ h : List Turn, store chat_id = some h → h ≠ [] →
      (get_history (new_chat store chat_id) chat_id).1 ≠ h) := by
  have hg : (get_history (new_chat store chat_id) chat_id).1 = [] := by
    unfold get_history new_chat
    simp
  refine ⟨hg, fun h _ hne => ?_⟩
  rw [hg]
  exact fun e => hne e.symm

theorem reset_then_get_empty_witness :
    (get_history (new_chat (storeSet exStoreEmpty 5 [⟨"user", "x"⟩]) 5) 5).1
      = [] ∧
    (get_history (new_chat (storeSet exStoreEmpty 5 [⟨"user", "x"⟩]) 5) 5).1
      ≠ [⟨"user", "x"⟩] :=
  ⟨(reset_then_get_empty (storeSet exStoreEmpty 5 [⟨"user", "x"⟩]) 5).1,
   (reset_then_get_empty (storeSet exStoreEmpty 5 [⟨"user", "x"⟩]) 5).2
     [⟨"user", "x"⟩] (by simp [storeSet, exStoreEmpty]) (by decide)⟩

/-- C6: if the bot token or the API key is absent (or empty) when a text
message arrives, `handle_message` replies with the configuration-error
message and stops, leaving the history store exactly as it was. -/
theorem config_missing_no_mutation (env : Env) (store : Store)
    (chat_id : Int) (s : String) (typing_ok : Bool) (outcome : HttpOutcome)
    (hs : pyTruthyStr? (some s) = true)
    (hcfg : pyTruthyStr? env.telegram_bot_token = false ∨
            pyTruthyStr? env.gemini_api_key = false) :
    handle_message env store chat_id (some s) typing_ok outcome =
      (store, .configErrorReplied config_error_text) := by
  unfold handle_message
  rw [hs]
  rcases hcfg with hc | hc <;> rw [hc] <;> simp

theorem config_missing_no_mutation_witness :
    handle_message
        { telegram_bot_token := none, gemini_api_key := some "key",
          system_prompt := none, temperature := 7 / 10,
          max_history := 30, max_reply_chars := 3500 }
        exStoreEmpty 1 (some "hi") true .timeout =
      (exStoreEmpty, .configErrorReplied config_error_text) :=
  config_missing_no_mutation _ exStoreEmpty 1 "hi" true .timeout
    (by decide) (Or.inl (by decide))

/-- `call_gemini` on a completed response, with its body exposed. -/
theorem call_gemini_response (env : Env) (h : List Turn) (status : Nat)
    (body : Option Json) :
    call_gemini env h (.response status body) =
      if 200 ≤ status ∧ status ≤ 299 then
        (match body with
         | none => .error .other
         | some data =>
           match extract_text data with
           | .ok s => .ok s
           | .error _ => .error .other)
      else .error (.httpStatus status) := rfl

/-- On the normal path with room for both turns, the stored history is the
old one plus the user turn plus the model turn. -/
theorem handle_message_two_appends (env : Env) (store : Store)
    (chat_id : Int) (s : String) (outcome : HttpOutcome)
    (htok : pyTruthyStr? env.telegram_bot_token = true)
    (hkey : pyTruthyStr? env.gemini_api_key = true)
    (hs : pyTruthyStr? (some s) = true)
    (hroom : (get_history store chat_id).1.length + 2 ≤ env.max_history) :
    (handle_message env store chat_id (some s) true outcome).1 chat_id =
      some ((get_history store chat_id).1 ++
        [⟨"user", pyStripS s⟩, ⟨"model", reply_for env [] outcome⟩]) := by
  rw [handle_message_eq env store chat_id s outcome htok hkey hs]
  show storeSet _ chat_id _ chat_id = _
  rw [storeSet_same]
  have h1 : dequeAppend env.max_history (get_history store chat_id).1
      ⟨"user", pyStripS s⟩ =
      (get_history store chat_id).1 ++ [⟨"user", pyStripS s⟩] :=
    dequeAppend_of_room _ _ _ (by omega)
  rw [h1]
  have h2 : dequeAppend env.max_history
      ((get_history store chat_id).1 ++ [⟨"user", pyStripS s⟩])
      ⟨"model", reply_for env
        ((get_history store chat_id).1 ++ [⟨"user", pyStripS s⟩]) outcome⟩ =
      ((get_history store chat_id).1 ++ [⟨"user", pyStripS s⟩]) ++
        [⟨"model", reply_for env
          ((get_history store chat_id).1 ++ [⟨"user", pyStripS s⟩]) outcome⟩] :=
    dequeAppend_of_room _ _ _ (by rw [List.length_append]; simp; omega)
  rw [h2, List.append_assoc]
  rfl

/-- C10: on the normal path the user turn is appended with the incoming
text stripped of surrounding whitespace, and a stripped text has no leading
or trailing whitespace character. -/
theorem user_text_stripped (env : Env) (store : Store) (chat_id : Int)
    (s : String) (outcome : HttpOutcome)
    (htok : pyTruthyStr? env.telegram_bot_token = true)
    (hkey : pyTruthyStr? env.gemini_api_key = true)
    (hs : pyTruthyStr? (some s) = true)
    (hroom : (get_history store chat_id).1.length + 2 ≤ env.max_history) :
    ((handle_message env store chat_id (some s) true outcome).1 chat_id =
      some ((get_history store chat_id).1 ++
        [⟨"user", pyStripS s⟩, ⟨"model", reply_for env [] outcome⟩])) ∧
    (∀ c : Char, (pyStripS s).data.head? = some c → isPySpace c = false) ∧
    (∀ c : Char, (pyStripS s).data.getLast? = some c → isPySpace c = false) :=
  ⟨handle_message_two_appends env store chat_id s outcome htok hkey hs hroom,
   fun c hc => pyStrip_head?_not_space s.data c hc,
   fun c hc => pyStrip_getLast?_not_space s.data c hc⟩

theorem user_text_stripped_witness :
    ((handle_message exEnv exStoreEmpty 1 (some " Hi ") true .timeout).1 1 =
      some [⟨"user", "Hi"⟩, ⟨"model", timeout_fallback⟩]) ∧
    isPySpace 'H' = false := by
  have H := user_text_stripped exEnv exStoreEmpty 1 " Hi " .timeout
    (by decide) (by decide) (by decide) (by decide)
  exact ⟨H.1, H.2.1 'H' (by decide)⟩

/-- C2: when the generation call fails (HTTP error status, timeout, other
exception) or extraction yields the empty string, the handler still appends
a model turn whose text is the corresponding fallback, so (given room under
the bound) the history gains exactly the user turn and the fallback model
turn. -/
theorem fallback_recorded_in_history (env : Env) (store : Store)
    (chat_id : Int) (s : String) (outcome : HttpOutcome) (fb : String)
    (htok : pyTruthyStr? env.telegram_bot_token = true)
    (hkey : pyTruthyStr? env.gemini_api_key = true)
    (hs : pyTruthyStr? (some s) = true)
    (hroom : (get_history store chat_id).1.length + 2 ≤ env.max_history)
    (hfb : (∃ e : CallError, call_gemini env [] outcome = .error e ∧
              fb = fallback_of e) ∨
           (call_gemini env [] outcome = .ok "" ∧
              fb = empty_reply_fallback)) :
    ((handle_message env store chat_id (some s) true outcome).1 chat_id =
      some ((get_history store chat_id).1 ++
        [⟨"user", pyStripS s⟩, ⟨"model", fb⟩])) ∧
    (∀ h : List Turn,
      (handle_message env store chat_id (some s) true outcome).1 chat_id =
        some h →
      h.length = (get_history store chat_id).1.length + 2) := by
  have hr : reply_for env [] outcome = fb := by
    unfold reply_for
    rcases hfb with ⟨e, he, hfb⟩ | ⟨he, hfb⟩
    · rw [he, hfb]
      cases e <;> rfl
    · rw [he, hfb]
      rfl
  have hmain := handle_message_two_appends env store chat_id s outcome
    htok hkey hs hroom
  rw [hr] at hmain
  refine ⟨hmain, fun h hh => ?_⟩
  rw [hmain] at hh
  injection hh with hh
  subst hh
  simp

theorem fallback_recorded_in_history_witness :
    ((handle_message exEnv exStoreEmpty 1 (some "Hi") true .timeout).1 1 =
      some [⟨"user", "Hi"⟩, ⟨"model", timeout_fallback⟩]) ∧
    (∀ h : List Turn,
      (handle_message exEnv exStoreEmpty 1 (some "Hi") true .timeout).1 1 =
        some h →
      h.length = 2) := by
  have H := fallback_recorded_in_history exEnv exStoreEmpty 1 "Hi" .timeout
    timeout_fallback (by decide) (by decide) (by decide) (by decide)
    (Or.inl ⟨CallError.timeout, rfl, rfl⟩)
  exact H

/-- C5: the reply text is determined by the outcome of the outbound call —
non-2xx status gives the API-error fallback (which carries the status
code), a timeout gives the timeout fallback, any other transport or parse
failure (including a JSON decode failure and an exception escaping
`extract_text`) gives the generic fallback — and for every outcome the
handler finishes with a reply rather than propagating a failure. -/
theorem failure_classification (env : Env) (store : Store) (chat_id : Int)
    (s : String)
    (htok : pyTruthyStr? env.telegram_bot_token = true)
    (hkey : pyTruthyStr? env.gemini_api_key = true)
    (hs : pyTruthyStr? (some s) = true) :
    (∀ status : Nat, ∀ body : Option Json, ¬(200 ≤ status ∧ status ≤ 299) →
      (handle_message env store chat_id (some s) true
          (.response status body)).2 =
        .replied (trim_for_telegram env.max_reply_chars
          (api_error_fallback status))) ∧
    ((handle_message env store chat_id (some s) true .timeout).2 =
      .replied (trim_for_telegram env.max_reply_chars timeout_fallback)) ∧
    ((handle_message env store chat_id (some s) true .otherFailure).2 =
      .replied (trim_for_telegram env.max_reply_chars
        unknown_error_fallback)) ∧
    (∀ status : Nat, 200 ≤ status → status ≤ 299 →
      (handle_message env store chat_id (some s) true
          (.response status none)).2 =
        .replied (trim_for_telegram env.max_reply_chars
          unknown_error_fallback)) ∧
    (∀ status : Nat, ∀ data : Json, 200 ≤ status → status ≤ 299 →
      extract_text data = .error () →
      (handle_message env store chat_id (some s) true
          (.response status (some data))).2 =
        .replied (trim_for_telegram env.max_reply_chars
          unknown_error_fallback)) ∧
    (∀ code : Nat, api_error_fallback code =
      "Ошибка Gemini API. Проверьте ключ и модель, затем повторите запрос. (HTTP "
        ++ toString code ++ ")") ∧
    (∀ outcome : HttpOutcome, ∃ t : String,
      (handle_message env store chat_id (some s) true outcome).2 =
        .replied t) := by
  have hsnd : ∀ outcome : HttpOutcome,
      (handle_message env store chat_id (some s) true outcome).2 =
        .replied (trim_for_telegram env.max_reply_chars
          (reply_for env [] outcome)) := by
    intro outcome
    rw [handle_message_eq env store chat_id s outcome htok hkey hs]
    rfl
  refine ⟨?_, ?_, ?_, ?_, ?_, fun _ => rfl, fun outcome => ⟨_, hsnd outcome⟩⟩
  · intro status body hno
    rw [hsnd]
    unfold reply_for
    rw [call_gemini_response, if_neg hno]
  · exact hsnd .timeout
  · exact hsnd .otherFailure
  · intro status h1 h2
    rw [hsnd]
    unfold reply_for
    rw [call_gemini_response, if_pos ⟨h1, h2⟩]
  · intro status data h1 h2 hext
    rw [hsnd]
    unfold reply_for
    rw [call_gemini_response, if_pos ⟨h1, h2⟩]
    simp only [hext]

theorem failure_classification_witness :
    ((handle_message exEnv exStoreEmpty 1 (some "Hi") true
        (.response 404 none)).2 =
      .replied (trim_for_telegram 3500 (api_error_fallback 404))) ∧
    ((handle_message exEnv exStoreEmpty 1 (some "Hi") true .timeout).2 =
      .replied (trim_for_telegram 3500 timeout_fallback)) ∧
    ((handle_message exEnv exStoreEmpty 1 (some "Hi") true
        (.response 200 none)).2 =
      .replied (trim_for_telegram 3500 unknown_error_fallback)) ∧
    ((handle_message exEnv exStoreEmpty 1 (some "Hi") true
        (.response 200 (some (mkResponse' (Json.num 3))))).2 =
      .replied (trim_for_telegram 3500 unknown_error_fallback)) := by
  have H := failure_classification exEnv exStoreEmpty 1 "Hi"
    (by decide) (by decide) (by decide)
  exact ⟨H.1 404 none (by decide), H.2.1,
    H.2.2.2.1 200 (by decide) (by decide),
    H.2.2.2.2.1 200 (mkResponse' (Json.num 3)) (by decide) (by decide) rfl⟩

/-- C9 counterexample: the `send_chat_action` call on line 126 is not
guarded; when it raises, the handler never invokes the generation client,
never appends the model turn and never replies — the history holds only the
user turn (the same input with typing succeeding would have replied with
the timeout fallback). -/
theorem typing_failure_aborts_cex :
    ((handle_message exEnv exStoreEmpty 1 (some "hi") false .timeout).2 =
      .raisedDuringTyping) ∧
    ((handle_message exEnv exStoreEmpty 1 (some "hi") false .timeout).1 1 =
      some [⟨"user", "hi"⟩]) ∧
    ((handle_message exEnv exStoreEmpty 1 (some "hi") true .timeout).2 =
      .replied (trim_for_telegram 3500 timeout_fallback)) := by
  refine ⟨rfl, rfl, ?_⟩
  rfl

/-- C9 amended: a failure of the typing-indicator call aborts the handler:
the exception propagates out, the generation client is never invoked, no
model turn is appended, and no reply is sent — the history retains only the
already-appended user turn. -/
theorem typing_failure_aborts (env : Env) (store : Store) (chat_id : Int)
    (s : String) (outcome : HttpOutcome)
    (htok : pyTruthyStr? env.telegram_bot_token = true)
    (hkey : pyTruthyStr? env.gemini_api_key = true)
    (hs : pyTruthyStr? (some s) = true) :
    ((handle_message env store chat_id (some s) false outcome).2 =
      .raisedDuringTyping) ∧
    ((handle_message env store chat_id (some s) false outcome).1 chat_id =
      some (dequeAppend env.max_history (get_history store chat_id).1
        ⟨"user", pyStripS s⟩)) := by
  rw [handle_message_typing_failed_eq env store chat_id s outcome htok hkey hs]
  exact ⟨rfl, storeSet_same _ _ _⟩

theorem typing_failure_aborts_witness :
    ((handle_message exEnv exStoreEmpty 2 (some "hello") false
        .otherFailure).2 = .raisedDuringTyping) ∧
    ((handle_message exEnv exStoreEmpty 2 (some "hello") false
        .otherFailure).1 2 = some [⟨"user", "hello"⟩]) := by
  have H := typing_failure_aborts exEnv exStoreEmpty 2 "hello" .otherFailure
    (by decide) (by decide) (by decide)
  exact H

/-- C4 counterexample: on a response whose parts are one dict with text
`"hi"` and one dict without a `text` field, `extract_text` returns `"hi"`,
not the empty string — a part lacking `text` is skipped, it does not force
an empty result. -/
theorem extract_skips_textless_part_cex :
    extract_text exDataSkip = .ok "hi" ∧ ("hi" : String) ≠ "" :=
  ⟨rfl, by decide⟩

/-- C4 amended: `extract_text` returns the empty string whenever the
guarded navigation to the parts fails (candidates missing or empty,
content or parts missing, or an intermediate value of the wrong type);
a part that merely lacks a `text` field is skipped silently, leaving the
remaining parts' contribution unchanged — so the result is empty only when
no part contributes truthy text.  (A parts value that is not iterable, or a
part that is not a dict, instead raises an exception absorbed upstream by
the handler's catch-all.) -/
theorem extract_silent_and_skipping :
    (∀ data : Json, navParts data = none → extract_text data = .ok "") ∧
    (∀ pre post : List Json, ∀ fields : List (String × Json),
      fields.lookup "text" = none →
      extract_text (mkResponse (pre ++ Json.obj fields :: post)) =
        extract_text (mkResponse (pre ++ post))) := by
  constructor
  · intro data hnav
    unfold extract_text
    rw [hnav]
  · intro pre post fields hf
    have hcollect : collectTexts (pre ++ Json.obj fields :: post) =
        collectTexts (pre ++ post) := by
      induction pre with
      | nil =>
        simp only [List.nil_append]
        cases hcp : collectTexts post with
        | ok l =>
          simp only [collectTexts, Json.dictGet, hf, hcp]
          rfl
        | error e =>
          simp only [collectTexts, Json.dictGet, hf, hcp]
          rfl
      | cons p pre ih =>
        simp only [List.cons_append]
        unfold collectTexts
        simp only [ih]
    have hext : ∀ l : List Json, extract_text (mkResponse l) =
        (collectTexts l).bind fun texts =>
          (joinStrs texts).bind fun s => .ok (pyStripS s) :=
      fun l => rfl
    rw [hext, hext, hcollect]

theorem extract_silent_and_skipping_witness :
    (extract_text (Json.obj []) = .ok "") ∧
    (extract_text (mkResponse
        [Json.obj [("text", Json.str "hi")], Json.obj []]) =
      extract_text (mkResponse [Json.obj [("text", Json.str "hi")]])) := by
  refine ⟨extract_silent_and_skipping.1 (Json.obj []) rfl, ?_⟩
  have H := extract_silent_and_skipping.2
    [Json.obj [("text", Json.str "hi")]] [] [] rfl
  exact H
